import Mathlib

/-!
Verification of the riegeli tensorflow `FileWriterBase` buffered writer
(`riegeli/tensorflow/io/file_writer.cc`) and of `Buffer::ToCord`
(`riegeli/base/buffer.cc`), as a shallow embedding.

Machine integers: `Position` and `size_t` are 64-bit unsigned; we model
them as `Nat` together with the explicit bounds `PosMax = 2^64 - 1`
(`std::numeric_limits<Position>::max()`) and `SizeMax = 2^64 - 1`
(`std::numeric_limits<size_t>::max()`).

The destination (`::tensorflow::WritableFile`) is modelled as a record of
deterministic responses; every writer operation returns, besides its
boolean result and the updated writer state, the list of destination
primitives it invoked, so that "calls Append exactly once" and "fails
without touching the destination" are statable.
-/

namespace Riegeli

/-- Maximum representable `Position` (`uint64_t`). -/
def PosMax : Nat := 2 ^ 64 - 1

/-- Maximum `size_t` value, used by `SaturatingAdd`. -/
def SizeMax : Nat := 2 ^ 64 - 1

/-- `riegeli::SaturatingAdd` on `size_t`. -/
def SaturatingAdd (a b : Nat) : Nat := min (a + b) SizeMax

/-- A `::tensorflow::Status`: numeric code (0 = OK) plus message.
`UNIMPLEMENTED` is code 12. -/
structure TFStatus where
  code : Nat
  message : String
deriving DecidableEq, Repr

/-- `status.ok()`. -/
def TFStatus.isOk (s : TFStatus) : Bool := s.code == 0

/-- `::tensorflow::errors::IsUnimplemented(status)`. -/
def TFStatus.isUnimpl (s : TFStatus) : Bool := s.code == 12

/-- One invocation of a destination (`WritableFile`) primitive.
Bytes are modelled as lists of byte values. -/
inductive DestCall where
  | append (src : List Nat)
  | flushDest
  | syncDest
deriving DecidableEq, Repr

/-- The destination capability: deterministic responses of a
`::tensorflow::WritableFile` to each primitive. -/
structure WritableFile where
  appendStatus : List Nat → TFStatus
  flushStatus : TFStatus
  syncStatus : TFStatus
  tellStatus : TFStatus
  tellPos : Nat
  nameStatus : TFStatus
  nameValue : String

/-- The recorded cause of a terminal failure: either position overflow
(`FailOverflow`), or a failed destination operation recorded by
`FailOperation` with the operation name, the annotated context string,
and the underlying status. -/
inductive FailureCause where
  | overflow
  | operation (op : String) (context : String) (code : Nat) (msg : String)
deriving DecidableEq, Repr

/-- State of a `FileWriterBase`.  The buffered window `[start_, limit_)`
with write cursor `cursor_` is represented by `buffered` (the bytes
between `start_` and `cursor_`, so `written_to_buffer() =
buffered.length`) and `windowSize` (`limit_ - start_`).  `bufferSize`
is `buffer_.size()` (the buffer's capacity hint). -/
structure WriterState where
  status : Option FailureCause
  start_pos : Nat
  bufferSize : Nat
  buffered : List Nat
  windowSize : Nat
  filename : String
deriving DecidableEq, Repr

/-- `Object::healthy()`. -/
def WriterState.healthy (s : WriterState) : Bool := s.status.isNone

/-- `Writer::written_to_buffer()` = `cursor_ - start_`. -/
def WriterState.written (s : WriterState) : Nat := s.buffered.length

/-- `Writer::available()` = `limit_ - cursor_`. -/
def WriterState.available (s : WriterState) : Nat :=
  s.windowSize - s.buffered.length

/-- Modelled from the spec: `Object::Fail` / `Writer::Fail` is not under
`src/`; per the spec, any failure transitions the writer to the terminal
failed state and "the window is degraded to zero available room". -/
def WriterState.fail (s : WriterState) (cause : FailureCause) : WriterState :=
  { s with status := some cause, windowSize := s.buffered.length }

/-- Modelled from the spec: `Writer::FailOverflow` is not under `src/`;
it fails the writer with the position-overflow cause. -/
def WriterState.failOverflow (s : WriterState) : WriterState :=
  s.fail .overflow

/-- `FileWriterBase::FailOperation`: annotates the failed status with
`operation ++ " failed"`, appending `" writing " ++ filename_` when the
filename is known, and fails the writer. -/
def WriterState.failOperation (s : WriterState) (st : TFStatus)
    (operation : String) : WriterState :=
  let context := operation ++ (" failed" ++
    (if s.filename = "" then "" else " writing " ++ s.filename))
  s.fail (.operation operation context st.code st.message)

/-- Result of one writer operation: the boolean return value, the new
writer state, and the destination primitives invoked (in order). -/
structure OpResult where
  ok : Bool
  state : WriterState
  calls : List DestCall
deriving DecidableEq, Repr

/-- `FileWriterBase::WriteInternal(src)`: fail with overflow if
`src.size() > max - start_pos_` (before touching the destination);
otherwise `dest->Append(src)`, failing with an annotated error on a bad
status and advancing `start_pos_` by `src.size()` on success. -/
def writeInternal (src : List Nat) (dest : WritableFile)
    (s : WriterState) : OpResult :=
  if src.length > PosMax - s.start_pos then
    ⟨false, s.failOverflow, []⟩
  else
    let st := dest.appendStatus src
    if st.isOk then
      ⟨true, { s with start_pos := s.start_pos + src.length }, [.append src]⟩
    else
      ⟨false, s.failOperation st "WritableFile::Append(string_view)",
        [.append src]⟩

/-- `FileWriterBase::PushInternal()`: return `false` if unhealthy; return
`true` if nothing is buffered; otherwise reset `cursor_` to `start_` and
hand the buffered span to `WriteInternal`. -/
def pushInternal (dest : WritableFile) (s : WriterState) : OpResult :=
  if s.healthy then
    if s.buffered.length = 0 then ⟨true, s, []⟩
    else writeInternal s.buffered dest { s with buffered := [] }
  else ⟨false, s, []⟩

/-- `FileWriterBase::PushSlow()` (precondition: `available() == 0`):
`PushInternal`, then fail with overflow if `start_pos_` is already the
maximum position, else reset the window to
`min (buffer_.size()) (max - start_pos_)` bytes. -/
def pushSlow (dest : WritableFile) (s : WriterState) : OpResult :=
  let r := pushInternal dest s
  if r.ok then
    if r.state.start_pos = PosMax then
      ⟨false, r.state.failOverflow, r.calls⟩
    else
      let w := min r.state.bufferSize (PosMax - r.state.start_pos)
      ⟨true, { r.state with buffered := [], windowSize := w }, r.calls⟩
  else r

/-- `FileWriterBase::LengthToWriteDirectly()`: `buffer_.size()`, inflated
by `SaturatingAdd(available(), ·)` when something is buffered. -/
def lengthToWriteDirectly (s : WriterState) : Nat :=
  if s.written > 0 then SaturatingAdd s.available s.bufferSize
  else s.bufferSize

/-- Modelled from the spec: the generic `Writer::WriteSlow` fallback
(`riegeli/bytes/writer.cc`, not under `src/`): repeatedly copy what fits
into the available room and flush through `PushSlow` until the rest fits,
then copy the rest.  `fuel` bounds the iteration count (the loop consumes
a positive chunk per round whenever the refreshed window is nonempty). -/
def writeSlowDefault (dest : WritableFile) :
    Nat → List Nat → WriterState → OpResult
  | fuel, src, s =>
    let a := s.available
    let s1 := { s with buffered := s.buffered ++ src.take a }
    let src1 := src.drop a
    let r := pushSlow dest s1
    if r.ok then
      if src1.length > r.state.available then
        match fuel with
        | 0 => ⟨false, r.state, r.calls⟩
        | fuel' + 1 =>
          let r2 := writeSlowDefault dest fuel' src1 r.state
          ⟨r2.ok, r2.state, r.calls ++ r2.calls⟩
      else
        ⟨true, { r.state with buffered := r.state.buffered ++ src1 }, r.calls⟩
    else r

/-- `FileWriterBase::WriteSlow(src)` (precondition: `src.size() >
available()`): write directly (flush, then `WriteInternal`) when
`src.size() >= LengthToWriteDirectly()`, otherwise fall back to the
generic buffering path. -/
def writeSlow (src : List Nat) (dest : WritableFile)
    (s : WriterState) : OpResult :=
  if src.length ≥ lengthToWriteDirectly s then
    let r := pushInternal dest s
    if r.ok then
      let r2 := writeInternal src dest r.state
      ⟨r2.ok, r2.state, r.calls ++ r2.calls⟩
    else r
  else writeSlowDefault dest src.length src s

/-- The three flush granularities (`riegeli::FlushType`). -/
inductive FlushType where
  | kFromObject
  | kFromProcess
  | kFromMachine
deriving DecidableEq, Repr

/-- `FileWriterBase::Flush(flush_type)`: `PushInternal` first; then
nothing more for `kFromObject`, `dest->Flush()` for `kFromProcess`,
`dest->Sync()` for `kFromMachine`, each failure annotated with the
primitive's name. -/
def flush (ft : FlushType) (dest : WritableFile) (s : WriterState) :
    OpResult :=
  let r := pushInternal dest s
  if r.ok then
    match ft with
    | .kFromObject => ⟨true, r.state, r.calls⟩
    | .kFromProcess =>
      if dest.flushStatus.isOk then ⟨true, r.state, r.calls ++ [.flushDest]⟩
      else
        ⟨false, r.state.failOperation dest.flushStatus "WritableFile::Flush()",
          r.calls ++ [.flushDest]⟩
    | .kFromMachine =>
      if dest.syncStatus.isOk then ⟨true, r.state, r.calls ++ [.syncDest]⟩
      else
        ⟨false, r.state.failOperation dest.syncStatus "WritableFile::Sync()",
          r.calls ++ [.syncDest]⟩
  else r

/-- Modelled from the spec: the public `Writer::Push` fast path (not under
`src/`): "ensure ≥ 1 byte of room; if none, enter the slow path". -/
def push (dest : WritableFile) (s : WriterState) : OpResult :=
  if s.available > 0 then ⟨true, s, []⟩ else pushSlow dest s

/-- Modelled from the spec: the public `Writer::Write` fast path (not
under `src/`): "copy into available room if it fits; else slow path". -/
def write (src : List Nat) (dest : WritableFile) (s : WriterState) :
    OpResult :=
  if src.length ≤ s.available then
    ⟨true, { s with buffered := s.buffered ++ src }, []⟩
  else writeSlow src dest s

/-- A public writer operation, for reasoning about arbitrary sequences of
subsequent calls. -/
inductive WOp where
  | push
  | write (src : List Nat)
  | flush (ft : FlushType)

/-- Run one public operation. -/
def runOp : WOp → WritableFile → WriterState → OpResult
  | .push, dest, s => push dest s
  | .write src, dest, s => write src dest s
  | .flush ft, dest, s => flush ft dest s

/-- Run a sequence of public operations, accumulating all destination
calls. -/
def runOps : List WOp → WritableFile → WriterState →
    WriterState × List DestCall
  | [], _, s => (s, [])
  | op :: ops, dest, s =>
    let r := runOp op dest s
    let rest := runOps ops dest r.state
    (rest.1, r.calls ++ rest.2)

/-- `FileWriterBase::InitializePos`: `dest->Tell`; a bad status is a
terminal failure annotated with `"WritableFile::Tell()"`, otherwise
`start_pos_` becomes the reported position. -/
def initializePos (dest : WritableFile) (s : WriterState) : WriterState :=
  if dest.tellStatus.isOk then { s with start_pos := dest.tellPos }
  else s.failOperation dest.tellStatus "WritableFile::Tell()"

/-- `FileWriterBase::InitializeFilename`: `dest->Name`; `UNIMPLEMENTED`
is ignored, any other bad status is a terminal failure, a good status
records the filename. -/
def initializeFilename (dest : WritableFile) (s : WriterState) :
    WriterState :=
  if dest.nameStatus.isOk then { s with filename := dest.nameValue }
  else if dest.nameStatus.isUnimpl then s
  else s.failOperation dest.nameStatus "WritableFile::Name()"

/-- The file-creation capability of `::tensorflow::Env` used by
`FileWriterBase::OpenFile`. -/
structure TFEnv where
  newAppendableStatus : TFStatus
  newWritableStatus : TFStatus
  file : WritableFile

/-- `FileWriterBase::OpenFile`: record the filename, then ask the
environment to create (or open for append) the file; a bad status is a
terminal failure annotated through `FailOperation` (whose context, the
filename now being set, names the path) and yields no file. -/
def openFile (env : TFEnv) (filename : String) (append : Bool)
    (s : WriterState) : Option WritableFile × WriterState :=
  let s1 := { s with filename := filename }
  let st := if append then env.newAppendableStatus else env.newWritableStatus
  if st.isOk then (some env.file, s1)
  else
    (none, s1.failOperation st
      (if append then "Env::NewAppendableFile()" else "Env::NewWritableFile()"))

/-- A `riegeli::Buffer`: one owned heap block; we record its contents,
whose length is the capacity. -/
structure RBuffer where
  data : List Nat
deriving DecidableEq, Repr

/-- `Buffer::capacity()`. -/
def RBuffer.capacity (b : RBuffer) : Nat := b.data.length

/-- The result of `Buffer::ToCord`: either a flat node holding copied
bytes (`absl::Cord(string_view)`), or an external node viewing `view`
whose releaser (`Releaser{std::move(...)}`) holds a moved `Buffer`
(`absl::MakeCordFromExternal`). -/
inductive Cord where
  | flat (data : List Nat)
  | external (view : List Nat) (held : RBuffer)
deriving DecidableEq, Repr

/-- The byte sequence a `Cord` represents. -/
def Cord.toList : Cord → List Nat
  | .flat d => d
  | .external v _ => v

/-- `absl::Cord::InlineRep::kMaxInline`. -/
def kMaxInline : Nat := 15

/-- `kMaxFlatSize` headroom from `cord.cc`: `4096 - 13`. -/
def kMaxFlatLength : Nat := 4096 - 13

/-- `Buffer::ToCord(substr)` where `substr` starts `off` bytes from
`data()` (`off` is an integer: a substring starting before the buffer
violates the first assertion) and is `len` bytes long.  `wasteful` is
the `riegeli::Wasteful(capacity, used)` predicate (defined outside
`src/`), kept as a parameter.  The two `RIEGELI_ASSERT` precondition
checks are modelled as `none` (fatal assertion failure). -/
def toCord (wasteful : Nat → Nat → Bool) (b : RBuffer) (off : Int)
    (len : Nat) : Option Cord :=
  if 0 ≤ off then
    if off + (len : Int) ≤ (b.capacity : Int) then
      let substr := (b.data.drop off.toNat).take len
      if len ≤ kMaxInline || wasteful b.capacity len then
        if len ≤ kMaxFlatLength then some (.flat substr)
        else some (.external substr ⟨substr⟩)
      else some (.external substr b)
    else none
  else none

/-- The terminal failed state as the spec describes it: unhealthy, with
the window degraded to zero available room. -/
def WriterState.Failed (s : WriterState) : Prop :=
  s.healthy = false ∧ s.windowSize = s.buffered.length

/-- Sample destination whose primitives all succeed. -/
def destOk : WritableFile :=
  ⟨fun _ => ⟨0, ""⟩, ⟨0, ""⟩, ⟨0, ""⟩, ⟨0, ""⟩, 0, ⟨0, ""⟩, "f"⟩

/-- Sample destination whose `Append` always fails with `NOT_FOUND`. -/
def destAppendFails : WritableFile :=
  ⟨fun _ => ⟨5, "gone"⟩, ⟨0, ""⟩, ⟨0, ""⟩, ⟨0, ""⟩, 0, ⟨0, ""⟩, "f"⟩

/-- Sample healthy state with an empty buffer. -/
def sEmpty : WriterState := ⟨none, 0, 4, [], 4, ""⟩

/-- Sample healthy state with one byte buffered. -/
def sBuf : WriterState := ⟨none, 0, 2, [7], 2, ""⟩

/-- Sample failed (degraded) state, used for claim C1. -/
def sFailA : WriterState := ⟨some .overflow, 3, 4, [], 0, ""⟩

/-- Sample failed (degraded) state, used for claim C6. -/
def sFailB : WriterState := ⟨some .overflow, 5, 4, [], 0, ""⟩

theorem failed_available {s : WriterState} (h : s.Failed) : s.available = 0 := by
  simp [WriterState.available, h.2]

theorem failed_pushInternal {s : WriterState} (dest : WritableFile)
    (h : s.Failed) : pushInternal dest s = ⟨false, s, []⟩ := by
  simp [pushInternal, h.1]

theorem failed_pushSlow {s : WriterState} (dest : WritableFile)
    (h : s.Failed) : pushSlow dest s = ⟨false, s, []⟩ := by
  simp [pushSlow, failed_pushInternal dest h]

theorem failed_push {s : WriterState} (dest : WritableFile)
    (h : s.Failed) : push dest s = ⟨false, s, []⟩ := by
  simp [push, failed_available h, failed_pushSlow dest h]

theorem failed_flush {s : WriterState} (dest : WritableFile) (ft : FlushType)
    (h : s.Failed) : flush ft dest s = ⟨false, s, []⟩ := by
  simp [flush, failed_pushInternal dest h]

theorem failed_writeSlowDefault {s : WriterState} (dest : WritableFile)
    (h : s.Failed) (fuel : Nat) (src : List Nat) :
    writeSlowDefault dest fuel src s = ⟨false, s, []⟩ := by
  have hs : { s with buffered := s.buffered ++ src.take s.available } = s := by
    rw [failed_available h]
    cases s
    simp
  cases fuel with
  | zero =>
    simp only [writeSlowDefault]
    rw [hs, failed_pushSlow dest h]
    rfl
  | succ n =>
    simp only [writeSlowDefault]
    rw [hs, failed_pushSlow dest h]
    rfl

theorem failed_writeSlow {s : WriterState} (dest : WritableFile)
    (h : s.Failed) (src : List Nat) :
    writeSlow src dest s = ⟨false, s, []⟩ := by
  simp only [writeSlow]
  split
  · simp [failed_pushInternal dest h]
  · exact failed_writeSlowDefault dest h src.length src

theorem write_nil (dest : WritableFile) (s : WriterState) :
    write [] dest s = ⟨true, s, []⟩ := by
  cases s
  simp [write, WriterState.available]

theorem failed_write {s : WriterState} (dest : WritableFile)
    (h : s.Failed) (src : List Nat) (hsrc : src ≠ []) :
    write src dest s = ⟨false, s, []⟩ := by
  have hlen : ¬ (src.length ≤ s.available) := by
    rw [failed_available h]
    simpa [Nat.le_zero, List.length_eq_zero] using hsrc
  simp [write, hlen, failed_writeSlow dest h src]

theorem failed_runOp {s : WriterState} (dest : WritableFile)
    (h : s.Failed) (op : WOp) :
    (runOp op dest s).state = s ∧ (runOp op dest s).calls = [] := by
  cases op with
  | push => simp [runOp, failed_push dest h]
  | write src =>
    cases src with
    | nil => simp [runOp, write_nil]
    | cons a l => simp [runOp, failed_write dest h (a :: l) (by simp)]
  | flush ft => simp [runOp, failed_flush dest ft h]

theorem failed_runOps {s : WriterState} (dest : WritableFile)
    (h : s.Failed) (ops : List WOp) : runOps ops dest s = (s, []) := by
  induction ops with
  | nil => rfl
  | cons op ops ih =>
    have h1 := failed_runOp dest h op
    simp only [runOps]
    rw [h1.1, h1.2, ih]
    rfl

/-- Claim C1 (amended): once the writer is in the terminal failed state
(unhealthy, window degraded to zero available room), `Push`, `Write` of
any nonempty bytes, and `Flush` all fail immediately without invoking
any destination operation, the state is unchanged (hence still failed:
it never returns to healthy), and an arbitrary sequence of subsequent
public calls makes no destination call at all.  (A `Write` of empty
bytes trivially succeeds without touching buffer or destination.) -/
theorem c1_failed_terminal (dest : WritableFile) (s : WriterState)
    (h : s.Failed) (src : List Nat) (hsrc : src ≠ []) (ft : FlushType)
    (ops : List WOp) :
    push dest s = ⟨false, s, []⟩ ∧
    write src dest s = ⟨false, s, []⟩ ∧
    flush ft dest s = ⟨false, s, []⟩ ∧
    runOps ops dest s = (s, []) :=
  ⟨failed_push dest h, failed_write dest h src hsrc, failed_flush dest ft h,
    failed_runOps dest h ops⟩

/-- Claim C1, counterexample to the claim as stated: on a failed writer a
`Write` of empty bytes returns success (it fits in the zero available
room), so not literally *every* subsequent `Write` call fails. -/
theorem c1_counterexample :
    sFailA.Failed ∧ (write [] destOk sFailA).ok = true := by
  constructor
  · constructor <;> rfl
  · rw [write_nil]

/-- Claim C1, witness: the amended theorem applied at a concrete failed
state, nonempty write, machine flush, and a concrete call sequence. -/
theorem c1_witness :
    push destOk sFailA = ⟨false, sFailA, []⟩ ∧
    write [9] destOk sFailA = ⟨false, sFailA, []⟩ ∧
    flush .kFromMachine destOk sFailA = ⟨false, sFailA, []⟩ ∧
    runOps [.push, .write [1, 2], .flush .kFromObject] destOk sFailA =
      (sFailA, []) :=
  c1_failed_terminal destOk sFailA (by exact ⟨rfl, rfl⟩) [9] (by simp)
    .kFromMachine [.push, .write [1, 2], .flush .kFromObject]

/-- Claim C6 (amended): `PushInternal` returns failure as a no-op (no
destination call, state unchanged) when the writer is unhealthy; returns
success as a no-op when healthy with nothing buffered; otherwise it
resets the cursor and hands the buffered span to `WriteInternal`. -/
theorem c6_pushInternal_cases (dest : WritableFile) (s : WriterState) :
    (s.healthy = false → pushInternal dest s = ⟨false, s, []⟩) ∧
    (s.healthy = true → s.buffered = [] → pushInternal dest s = ⟨true, s, []⟩) ∧
    (s.healthy = true → s.buffered ≠ [] →
      pushInternal dest s = writeInternal s.buffered dest
        { s with buffered := [] }) := by
  refine ⟨fun h => by simp [pushInternal, h], fun h hb => by
    simp [pushInternal, h, hb], fun h hb => by
    simp [pushInternal, h, List.length_eq_zero, hb]⟩

/-- Claim C6, counterexample to the claim as stated: on an unhealthy
writer `PushInternal` returns `false`, not success. -/
theorem c6_counterexample :
    sFailB.healthy = false ∧ (pushInternal destOk sFailB).ok = false := by
  constructor
  · rfl
  · rw [@failed_pushInternal sFailB destOk ⟨rfl, rfl⟩]

/-- Claim C6, witness: the amended theorem applied at a healthy state
with one buffered byte. -/
theorem c6_witness :
    pushInternal destOk sBuf =
      writeInternal sBuf.buffered destOk { sBuf with buffered := [] } :=
  (c6_pushInternal_cases destOk sBuf).2.2 rfl (by simp [sBuf])

/-- Claim C10: `PushInternal` resets the cursor before handing the
buffered span to the destination, so when `Append` fails (no overflow
involved) the call fails, `written_to_buffer()` is 0 afterward, the
one `Append` carried the buffered bytes, the state is terminally
failed, and no later call sequence makes any destination call (the
bytes are never re-sent). -/
theorem c10_pushInternal_discards (dest : WritableFile) (s : WriterState)
    (hh : s.healthy = true) (hb : s.buffered ≠ [])
    (hlen : s.buffered.length ≤ PosMax - s.start_pos)
    (hfail : (dest.appendStatus s.buffered).isOk = false)
    (dest2 : WritableFile) (ops : List WOp) :
    (pushInternal dest s).ok = false ∧
    (pushInternal dest s).state.written = 0 ∧
    (pushInternal dest s).calls = [.append s.buffered] ∧
    (pushInternal dest s).state.Failed ∧
    runOps ops dest2 (pushInternal dest s).state =
      ((pushInternal dest s).state, []) := by
  have hnov : ¬ (s.buffered.length > PosMax - s.start_pos) := by omega
  have hp : pushInternal dest s =
      ⟨false,
        WriterState.failOperation { s with buffered := [] }
          (dest.appendStatus s.buffered) "WritableFile::Append(string_view)",
        [.append s.buffered]⟩ := by
    simp [pushInternal, hh, List.length_eq_zero, hb, writeInternal, hnov, hfail]
  have hFailed : (pushInternal dest s).state.Failed := by
    rw [hp]
    exact ⟨rfl, rfl⟩
  refine ⟨by rw [hp], ?_, by rw [hp], hFailed, failed_runOps dest2 hFailed ops⟩
  rw [hp]
  rfl

/-- Claim C10, witness: a concrete healthy state with one buffered byte
and a destination whose `Append` fails. -/
theorem c10_witness :
    (pushInternal destAppendFails sBuf).ok = false ∧
    (pushInternal destAppendFails sBuf).state.written = 0 ∧
    (pushInternal destAppendFails sBuf).calls = [.append sBuf.buffered] ∧
    (pushInternal destAppendFails sBuf).state.Failed ∧
    runOps [.push, .write [3], .flush .kFromProcess] destOk
        (pushInternal destAppendFails sBuf).state =
      ((pushInternal destAppendFails sBuf).state, []) :=
  c10_pushInternal_discards destAppendFails sBuf rfl (by simp [sBuf])
    (by decide) rfl destOk [.push, .write [3], .flush .kFromProcess]

/-- Sample destination whose `Flush` fails and whose other primitives
succeed. -/
def destFlushFails : WritableFile :=
  ⟨fun _ => ⟨0, ""⟩, ⟨7, "flush boom"⟩, ⟨0, ""⟩, ⟨0, ""⟩, 0, ⟨0, ""⟩, "f"⟩

/-- Claim C2: `WriteInternal(src)` under its precondition (nonempty
`src`, healthy writer, nothing buffered): if the resulting position
would exceed the maximum representable position it fails with overflow
without calling `Append` and leaves `start_pos` unchanged; otherwise it
calls `Append(src)` exactly once and, on success, advances `start_pos`
by exactly `src.length`, which stays within the maximum. -/
theorem c2_writeInternal_overflow_or_append (dest : WritableFile)
    (s : WriterState) (src : List Nat) (hne : src ≠ [])
    (hh : s.healthy = true) (hb : s.buffered = [])
    (hp : s.start_pos ≤ PosMax) :
    (s.start_pos + src.length > PosMax →
      (writeInternal src dest s).ok = false ∧
      (writeInternal src dest s).calls = [] ∧
      (writeInternal src dest s).state.start_pos = s.start_pos ∧
      (writeInternal src dest s).state.status = some .overflow) ∧
    (s.start_pos + src.length ≤ PosMax →
      (writeInternal src dest s).calls = [.append src] ∧
      ((dest.appendStatus src).isOk = true →
        (writeInternal src dest s).ok = true ∧
        (writeInternal src dest s).state.start_pos =
          s.start_pos + src.length ∧
        (writeInternal src dest s).state.start_pos ≤ PosMax)) := by
  constructor
  · intro hov
    have hc : src.length > PosMax - s.start_pos := by omega
    simp [writeInternal, hc, WriterState.failOverflow, WriterState.fail]
  · intro hle
    have hc : ¬ (src.length > PosMax - s.start_pos) := by omega
    constructor
    · simp only [writeInternal, if_neg hc]
      split <;> rfl
    · intro hok
      refine ⟨?_, ?_, ?_⟩
      · simp [writeInternal, hc, hok]
      · simp [writeInternal, hc, hok]
      · simp only [writeInternal, if_neg hc, hok, if_pos]
        simpa using hle

/-- Claim C2, witness: a successful two-byte `WriteInternal` on a fresh
healthy writer calls `Append` once and advances the position by 2. -/
theorem c2_witness :
    (writeInternal [1, 2] destOk sEmpty).calls = [.append [1, 2]] ∧
    (writeInternal [1, 2] destOk sEmpty).ok = true ∧
    (writeInternal [1, 2] destOk sEmpty).state.start_pos =
      sEmpty.start_pos + [1, 2].length := by
  have h := (c2_writeInternal_overflow_or_append destOk sEmpty [1, 2]
    (by simp) rfl rfl (by decide)).2 (by decide)
  exact ⟨h.1, (h.2 rfl).1, (h.2 rfl).2.1⟩

theorem pushInternal_calls (dest : WritableFile) (s : WriterState) :
    (pushInternal dest s).calls = [] ∨
      ∃ b, (pushInternal dest s).calls = [.append b] := by
  simp only [pushInternal]
  split
  · split
    · exact .inl rfl
    · simp only [writeInternal]
      split
      · exact .inl rfl
      · split
        · exact .inr ⟨_, rfl⟩
        · exact .inr ⟨_, rfl⟩
  · exact .inl rfl

/-- Claim C5: every `Flush(granularity)` performs `PushInternal` first
(whose destination traffic is at most one `Append`); if it fails, all
three levels return its failure unchanged; if it succeeds, the
object-level flush makes no further destination call and succeeds, the
process level calls `Destination.Flush()` exactly once and the machine
level calls `Destination.Sync()` exactly once, each returning success
on a good status and otherwise failing with an error annotated with the
failing primitive's name. -/
theorem c5_flush_levels (dest : WritableFile) (s : WriterState) :
    ((pushInternal dest s).calls = [] ∨
      ∃ b, (pushInternal dest s).calls = [.append b]) ∧
    ((pushInternal dest s).ok = false →
      flush .kFromObject dest s = pushInternal dest s ∧
      flush .kFromProcess dest s = pushInternal dest s ∧
      flush .kFromMachine dest s = pushInternal dest s) ∧
    ((pushInternal dest s).ok = true →
      flush .kFromObject dest s =
        ⟨true, (pushInternal dest s).state, (pushInternal dest s).calls⟩ ∧
      (flush .kFromProcess dest s).calls =
        (pushInternal dest s).calls ++ [.flushDest] ∧
      (flush .kFromMachine dest s).calls =
        (pushInternal dest s).calls ++ [.syncDest] ∧
      (dest.flushStatus.isOk = true →
        (flush .kFromProcess dest s).ok = true) ∧
      (dest.flushStatus.isOk = false →
        (flush .kFromProcess dest s).ok = false ∧
        ∃ r, (flush .kFromProcess dest s).state.status =
          some (.operation "WritableFile::Flush()"
            ("WritableFile::Flush()" ++ r)
            dest.flushStatus.code dest.flushStatus.message)) ∧
      (dest.syncStatus.isOk = true →
        (flush .kFromMachine dest s).ok = true) ∧
      (dest.syncStatus.isOk = false →
        (flush .kFromMachine dest s).ok = false ∧
        ∃ r, (flush .kFromMachine dest s).state.status =
          some (.operation "WritableFile::Sync()"
            ("WritableFile::Sync()" ++ r)
            dest.syncStatus.code dest.syncStatus.message))) := by
  refine ⟨pushInternal_calls dest s, fun h => ?_, fun h => ?_⟩
  · exact ⟨by simp [flush, h], by simp [flush, h], by simp [flush, h]⟩
  · refine ⟨by simp [flush, h], ?_, ?_, ?_, ?_, ?_, ?_⟩
    · simp only [flush, h, if_pos]
      split <;> rfl
    · simp only [flush, h, if_pos]
      split <;> rfl
    · intro hf
      simp [flush, h, hf]
    · intro hf
      constructor
      · simp [flush, h, hf]
      · simp only [flush, h, if_pos, hf, Bool.false_eq_true, if_neg,
          WriterState.failOperation, WriterState.fail]
        exact ⟨_, rfl⟩
    · intro hf
      simp [flush, h, hf]
    · intro hf
      constructor
      · simp [flush, h, hf]
      · simp only [flush, h, if_pos, hf, Bool.false_eq_true, if_neg,
          WriterState.failOperation, WriterState.fail]
        exact ⟨_, rfl⟩

/-- Claim C5, witness: on a destination whose `Flush` fails, the
object-level flush succeeds with no extra call, the process-level flush
fails, and the machine-level flush (whose `Sync` succeeds) succeeds. -/
theorem c5_witness :
    flush .kFromObject destFlushFails sEmpty =
      ⟨true, (pushInternal destFlushFails sEmpty).state,
        (pushInternal destFlushFails sEmpty).calls⟩ ∧
    (flush .kFromProcess destFlushFails sEmpty).ok = false ∧
    (flush .kFromMachine destFlushFails sEmpty).ok = true := by
  have h := (c5_flush_levels destFlushFails sEmpty).2.2 (by decide)
  exact ⟨h.1, (h.2.2.2.2.1 (by decide)).1, h.2.2.2.2.2.1 (by decide)⟩

theorem pushInternal_pos_le (dest : WritableFile) (s : WriterState)
    (hp : s.start_pos ≤ PosMax) :
    (pushInternal dest s).state.start_pos ≤ PosMax := by
  simp only [pushInternal, writeInternal]
  split
  · split
    · exact hp
    · split
      · simpa [WriterState.failOverflow, WriterState.fail] using hp
      · split
        · rename_i hnov _
          simp at hnov ⊢
          omega
        · simpa [WriterState.failOperation, WriterState.fail] using hp
  · exact hp

/-- Healthy state one flush away from breaking the claimed window
invariant: `start_pos + windowSize` is exactly `PosMax`, with five bytes
buffered. -/
def s7 : WriterState := ⟨none, PosMax - 10, 10, [1, 2, 3, 4, 5], 10, ""⟩

/-- Claim C7, counterexample to "the window invariant is preserved by
every operation": a healthy state satisfying
`start_pos + (limit - start) ≤ PosMax` on which an object-level `Flush`
succeeds yet leaves `start_pos + (limit - start) > PosMax` (the flush
advances `start_pos` without shrinking the window). -/
theorem c7_counterexample :
    s7.healthy = true ∧
    s7.start_pos + s7.windowSize ≤ PosMax ∧
    (flush .kFromObject destOk s7).ok = true ∧
    (flush .kFromObject destOk s7).state.start_pos +
      (flush .kFromObject destOk s7).state.windowSize > PosMax := by
  refine ⟨rfl, by decide, by decide, by decide⟩

/-- Claim C7 (amended): `PushSlow` (precondition: zero available room)
propagates a `PushInternal` failure unchanged; after a successful
`PushInternal` it fails with overflow exactly when `start_pos` already
equals the maximum position, and otherwise succeeds with the window
reset to `min (buffer capacity) (PosMax - start_pos)` bytes, which
re-establishes `start_pos + (limit - start) ≤ PosMax`.  (The invariant
is established here, not preserved by every operation: see the
counterexample, where `Flush` advances `start_pos` under an unchanged
window.) -/
theorem c7_pushSlow_window (dest : WritableFile) (s : WriterState)
    (hav : s.available = 0) (hp : s.start_pos ≤ PosMax) :
    ((pushInternal dest s).ok = false →
      pushSlow dest s = pushInternal dest s) ∧
    ((pushInternal dest s).ok = true →
      (pushInternal dest s).state.start_pos ≤ PosMax ∧
      ((pushInternal dest s).state.start_pos = PosMax →
        (pushSlow dest s).ok = false ∧
        (pushSlow dest s).state.status = some .overflow) ∧
      ((pushInternal dest s).state.start_pos < PosMax →
        (pushSlow dest s).ok = true ∧
        (pushSlow dest s).state.buffered = [] ∧
        (pushSlow dest s).state.windowSize =
          min (pushInternal dest s).state.bufferSize
            (PosMax - (pushInternal dest s).state.start_pos) ∧
        (pushSlow dest s).state.start_pos +
          (pushSlow dest s).state.windowSize ≤ PosMax)) := by
  refine ⟨fun h => by simp [pushSlow, h], fun h => ?_⟩
  refine ⟨pushInternal_pos_le dest s hp, fun hmax => ?_, fun hlt => ?_⟩
  · constructor <;>
      simp [pushSlow, h, hmax, WriterState.failOverflow, WriterState.fail]
  · have hne : ¬ ((pushInternal dest s).state.start_pos = PosMax) := by omega
    refine ⟨?_, ?_, ?_, ?_⟩ <;> simp [pushSlow, h, hne]
    omega

/-- Healthy state with zero available room and an empty buffer, for the
claim C7 witness. -/
def sPush : WriterState := ⟨none, 0, 4, [], 0, ""⟩

/-- Claim C7, witness: a successful `PushSlow` from a fresh zero-room
state resets the window to `min capacity (PosMax - start_pos)` bytes
and re-establishes the window invariant. -/
theorem c7_witness :
    (pushSlow destOk sPush).ok = true ∧
    (pushSlow destOk sPush).state.buffered = [] ∧
    (pushSlow destOk sPush).state.windowSize =
      min (pushInternal destOk sPush).state.bufferSize
        (PosMax - (pushInternal destOk sPush).state.start_pos) ∧
    (pushSlow destOk sPush).state.start_pos +
      (pushSlow destOk sPush).state.windowSize ≤ PosMax :=
  ((c7_pushSlow_window destOk sPush rfl (by decide)).2 (by decide)).2.2
    (by decide)

/-- Healthy state with ten bytes of capacity and window, three of them
buffered, for the claim C3 counterexample. -/
def s3 : WriterState := ⟨none, 0, 10, [1, 2, 3], 10, ""⟩

/-- Thirteen bytes, the length at which the claimed threshold
(capacity ⊕ buffered = 13) predicts a direct write while the code's
threshold (available ⊕ capacity = 17) does not. -/
def src13 : List Nat :=
  [20, 21, 22, 23, 24, 25, 26, 27, 28, 29, 30, 31, 32]

/-- Claim C3, counterexample to the claim as stated: the direct-write
threshold is not capacity saturating-plus bytes-buffered (13 here) but
available saturating-plus capacity (17); a 13-byte write, which the
claim says goes directly to the destination after a flush, is instead
buffered (the only `Append` carries 10 bytes from the buffer, and the
13 source bytes are never appended as one direct write). -/
theorem c3_counterexample :
    src13.length > s3.available ∧
    lengthToWriteDirectly s3 ≠ SaturatingAdd s3.bufferSize s3.written ∧
    src13.length ≥ SaturatingAdd s3.bufferSize s3.written ∧
    (writeSlow src13 destOk s3).calls =
      [.append [1, 2, 3, 20, 21, 22, 23, 24, 25, 26]] := by
  refine ⟨by decide, by decide, by decide, by decide⟩

/-- Claim C3 (amended): the direct-write threshold equals the buffer
capacity inflated via saturating addition by the *available room* when
bytes are already buffered (and equals the capacity alone otherwise);
a `WriteSlow` of at least the threshold flushes the buffered bytes and
then appends the source directly (one `Append` per span, position
advanced by both), and a shorter one falls back to default
buffering. -/
theorem c3_writeSlow_threshold (dest : WritableFile) (s : WriterState)
    (src : List Nat) (hpre : src.length > s.available)
    (hp : s.start_pos + s.written + src.length ≤ PosMax)
    (hh : s.healthy = true)
    (hbs : (dest.appendStatus s.buffered).isOk = true)
    (hss : (dest.appendStatus src).isOk = true) (hne : src ≠ []) :
    (s.written > 0 →
      lengthToWriteDirectly s = SaturatingAdd s.available s.bufferSize) ∧
    (s.written = 0 → lengthToWriteDirectly s = s.bufferSize) ∧
    (src.length < lengthToWriteDirectly s →
      writeSlow src dest s = writeSlowDefault dest src.length src s) ∧
    (src.length ≥ lengthToWriteDirectly s →
      (writeSlow src dest s).ok = true ∧
      (writeSlow src dest s).state.start_pos =
        s.start_pos + s.written + src.length ∧
      (writeSlow src dest s).calls =
        (if s.buffered = [] then [] else [.append s.buffered]) ++
          [.append src]) := by
  have hwr : s.written = s.buffered.length := rfl
  refine ⟨fun h => by simp [lengthToWriteDirectly, h],
    fun h => by simp [lengthToWriteDirectly, h], fun h => ?_, fun h => ?_⟩
  · have hlt : ¬ (lengthToWriteDirectly s ≤ src.length) := by omega
    simp [writeSlow, hlt]
  · by_cases hb : s.buffered = []
    · have hr : pushInternal dest s = ⟨true, s, []⟩ := by
        simp [pushInternal, hh, hb]
      have hw0 : s.written = 0 := by simp [hwr, hb]
      have hnov : ¬ (src.length > PosMax - s.start_pos) := by omega
      refine ⟨?_, ?_, ?_⟩ <;>
        simp [writeSlow, h, hr, writeInternal, hnov, hss, hb, hw0]
    · have hw1 : ¬ (s.buffered.length > PosMax - s.start_pos) := by omega
      have hr : pushInternal dest s =
          ⟨true, { s with buffered := [], start_pos := s.start_pos + s.buffered.length }, [.append s.buffered]⟩ := by
        simp [pushInternal, hh, List.length_eq_zero, hb, writeInternal,
          hw1, hbs]
      have hnov2 :
          ¬ (src.length > PosMax - (s.start_pos + s.buffered.length)) := by
        omega
      refine ⟨?_, ?_, ?_⟩ <;>
        simp [writeSlow, h, hr, writeInternal, hnov2, hss, hb, hwr, Nat.add_assoc]

/-- Claim C3, witness: a three-byte write on a two-byte buffer holding
one byte (threshold `1 ⊕ 2 = 3`) flushes the buffered byte and appends
the three source bytes directly. -/
theorem c3_witness :
    (writeSlow [1, 2, 3] destOk sBuf).ok = true ∧
    (writeSlow [1, 2, 3] destOk sBuf).state.start_pos =
      sBuf.start_pos + sBuf.written + [1, 2, 3].length ∧
    (writeSlow [1, 2, 3] destOk sBuf).calls =
      (if sBuf.buffered = [] then [] else [.append sBuf.buffered]) ++
        [.append [1, 2, 3]] :=
  (c3_writeSlow_threshold destOk sBuf [1, 2, 3] (by decide) (by decide) rfl
    (by decide) (by decide) (by simp)).2.2.2 (by decide)

/-- Claim C8: `ToCord(substr)` reaches a value (no assertion failure)
exactly when the substring lies fully within the buffer's allocated
range; outside it, the model's assertion-failure outcome (`none`, a
fatal programming error, not a recoverable failure) is taken. -/
theorem c8_toCord_precondition (w : Nat → Nat → Bool) (b : RBuffer)
    (off : Int) (len : Nat) :
    (toCord w b off len).isSome = true ↔
      (0 ≤ off ∧ off + (len : Int) ≤ (b.capacity : Int)) := by
  by_cases h1 : 0 ≤ off
  · by_cases h2 : off + (len : Int) ≤ (b.capacity : Int)
    · constructor
      · intro _
        exact ⟨h1, h2⟩
      · intro _
        simp only [toCord, if_pos h1, if_pos h2]
        split
        · split <;> rfl
        · rfl
    · simp [toCord, h1, h2]
  · simp [toCord, h1]

/-- Claim C4: under the containment precondition, `ToCord(substr)`
always returns a value equal to `substr`; it copies into a single flat
node when `substr` is at most the inline threshold or the buffer is
wasteful for it and `substr` fits in one flat node; it copies once into
a freshly allocated exactly-sized buffer attached zero-copy when the
copy branch is taken but `substr` exceeds the flat-node limit; and in
all remaining cases it transfers the buffer's ownership into the result
with no copy, the release hook holding the moved buffer itself. -/
theorem c4_toCord_policy (w : Nat → Nat → Bool) (b : RBuffer) (off : Int)
    (len : Nat) (h1 : 0 ≤ off)
    (h2 : off + (len : Int) ≤ (b.capacity : Int)) :
    ((toCord w b off len).map Cord.toList =
      some ((b.data.drop off.toNat).take len)) ∧
    ((len ≤ kMaxInline ∨ w b.capacity len = true) → len ≤ kMaxFlatLength →
      toCord w b off len =
        some (.flat ((b.data.drop off.toNat).take len))) ∧
    ((len ≤ kMaxInline ∨ w b.capacity len = true) → kMaxFlatLength < len →
      toCord w b off len =
        some (.external ((b.data.drop off.toNat).take len)
          ⟨(b.data.drop off.toNat).take len⟩) ∧
      (RBuffer.mk ((b.data.drop off.toNat).take len)).capacity = len) ∧
    (¬ (len ≤ kMaxInline) → w b.capacity len = false →
      toCord w b off len =
        some (.external ((b.data.drop off.toNat).take len) b)) := by
  have hcap : off.toNat + len ≤ b.data.length := by
    simp only [RBuffer.capacity] at h2
    omega
  have hsub : ((b.data.drop off.toNat).take len).length = len := by
    simp only [List.length_take, List.length_drop]
    omega
  refine ⟨?_, fun hc hf => ?_, fun hc hf => ?_, fun hc hw => ?_⟩
  · simp only [toCord, if_pos h1, if_pos h2]
    split
    · split <;> simp [Cord.toList]
    · simp [Cord.toList]
  · have hcond : (len ≤ kMaxInline || w b.capacity len) = true := by
      cases hc with
      | inl h => simp [h]
      | inr h => simp [h]
    simp [toCord, h1, h2, hcond, hf]
  · have hcond : (len ≤ kMaxInline || w b.capacity len) = true := by
      cases hc with
      | inl h => simp [h]
      | inr h => simp [h]
    have hnf : ¬ (len ≤ kMaxFlatLength) := by omega
    refine ⟨by simp [toCord, h1, h2, hcond, hnf], ?_⟩
    simp only [RBuffer.capacity]
    exact hsub
  · have hcond : (len ≤ kMaxInline || w b.capacity len) = false := by
      simp [hc, hw]
    simp [toCord, h1, h2, hcond]

/-- A sixteen-byte buffer, fully used, for the claim C4 witness. -/
def bWit : RBuffer :=
  ⟨[0, 1, 2, 3, 4, 5, 6, 7, 8, 9, 10, 11, 12, 13, 14, 15]⟩

/-- Claim C4, witness: a sixteen-byte substring of a well-utilized
sixteen-byte buffer is attached by ownership transfer (the external
node's releaser holds the original buffer) and represents exactly the
substring bytes. -/
theorem c4_witness :
    toCord (fun _ _ => false) bWit 0 16 =
      some (.external ((bWit.data.drop (Int.toNat 0)).take 16) bWit) ∧
    (toCord (fun _ _ => false) bWit 0 16).map Cord.toList =
      some ((bWit.data.drop (Int.toNat 0)).take 16) :=
  ⟨(c4_toCord_policy (fun _ _ => false) bWit 0 16 (by decide)
      (by decide)).2.2.2 (by decide) rfl,
    (c4_toCord_policy (fun _ _ => false) bWit 0 16 (by decide)
      (by decide)).1⟩

/-- Claim C9: initializing over an already-open destination fails
terminally when the position query (`Tell`) fails, annotated with the
failing primitive's name; a name query reporting `UNIMPLEMENTED` leaves
the writer state entirely unchanged (healthy, no diagnostic context);
and opening by path on a failing open is terminal, yields no file, and
its failure annotation names the path. -/
theorem c9_initialization (dest : WritableFile) (s : WriterState)
    (env : TFEnv) (fn : String) (append : Bool) (s2 : WriterState)
    (htell : dest.tellStatus.isOk = false)
    (hname1 : dest.nameStatus.isOk = false)
    (hname2 : dest.nameStatus.isUnimpl = true)
    (hopen : (if append then env.newAppendableStatus
      else env.newWritableStatus).isOk = false)
    (hfn : fn ≠ "") :
    (initializePos dest s).healthy = false ∧
    (initializePos dest s).status =
      some (.operation "WritableFile::Tell()"
        ("WritableFile::Tell()" ++ (" failed" ++
          (if s.filename = "" then "" else " writing " ++ s.filename)))
        dest.tellStatus.code dest.tellStatus.message) ∧
    initializeFilename dest s = s ∧
    (openFile env fn append s2).1 = none ∧
    (openFile env fn append s2).2.healthy = false ∧
    (openFile env fn append s2).2.status =
      some (.operation
        (if append then "Env::NewAppendableFile()"
          else "Env::NewWritableFile()")
        ((if append then "Env::NewAppendableFile()"
          else "Env::NewWritableFile()") ++
          (" failed" ++ (" writing " ++ fn)))
        (if append then env.newAppendableStatus
          else env.newWritableStatus).code
        (if append then env.newAppendableStatus
          else env.newWritableStatus).message) := by
  refine ⟨?_, ?_, ?_, ?_, ?_, ?_⟩
  · simp [initializePos, htell, WriterState.failOperation, WriterState.fail,
      WriterState.healthy]
  · simp [initializePos, htell, WriterState.failOperation, WriterState.fail]
  · simp [initializeFilename, hname1, hname2]
  · simp [openFile, hopen]
  · simp [openFile, hopen, WriterState.failOperation, WriterState.fail,
      WriterState.healthy]
  · simp [openFile, hopen, WriterState.failOperation, WriterState.fail, hfn]

/-- Sample destination whose `Tell` fails and whose `Name` reports
`UNIMPLEMENTED`. -/
def destTellFails : WritableFile :=
  ⟨fun _ => ⟨0, ""⟩, ⟨0, ""⟩, ⟨0, ""⟩, ⟨9, "tell bad"⟩, 0, ⟨12, "unimpl"⟩, "n"⟩

/-- Sample environment whose file-creation calls fail. -/
def envBad : TFEnv := ⟨⟨3, "no"⟩, ⟨3, "no"⟩, destOk⟩

/-- Claim C9, witness: concrete failing `Tell`, unsupported `Name`, and
failing open by path, with the path in the annotated context. -/
theorem c9_witness :
    (initializePos destTellFails sEmpty).healthy = false ∧
    (initializePos destTellFails sEmpty).status =
      some (.operation "WritableFile::Tell()"
        ("WritableFile::Tell()" ++ (" failed" ++
          (if sEmpty.filename = "" then ""
            else " writing " ++ sEmpty.filename)))
        9 "tell bad") ∧
    initializeFilename destTellFails sEmpty = sEmpty ∧
    (openFile envBad "out.txt" false sEmpty).1 = none ∧
    (openFile envBad "out.txt" false sEmpty).2.healthy = false ∧
    (openFile envBad "out.txt" false sEmpty).2.status =
      some (.operation "Env::NewWritableFile()"
        ("Env::NewWritableFile()" ++
          (" failed" ++ (" writing " ++ "out.txt")))
        3 "no") :=
  c9_initialization destTellFails sEmpty envBad "out.txt" false sEmpty
    rfl rfl rfl rfl (by decide)

end Riegeli
